import Mathlib

/-!
Verification of the caching and token-estimation layer of the
Equity Research News Tool (`app.py`).

The program is a Streamlit page.  We embed the layer the specification is
about: the two cache tiers wrapping the summary computation
(`st.cache_data` outer tier with a 24-hour TTL, `functools.lru_cache`-style
inner tier with unbounded lifetime), the "Clear all caches" handler, the
article concatenation, the token estimate, and the "Run" button flow.

The two outbound API calls (NewsAPI fetch, LLM summarization) are modelled
as an environment of oracles; the number of calls to each is counted
explicitly so that cache-hit claims ("no upstream call") are statable.
Time is an explicit natural-number parameter (seconds); the outer tier
stores the insertion time of each entry and a lookup at time `t` only
returns entries younger than the TTL — this is the observable content of
`st.cache_data(ttl=...)`.

`langchain_config.py` is imported by `app.py` but is not part of the
sources available here; the definitions taken from it are modelled from the
specification and say so in their doc comments.
-/

deriving instance DecidableEq for Except

namespace EquityNews

/-- An article record as consumed by `app.py`: the fields `title`,
`description`, `source.name` and `url`, each possibly absent.  The nested
`source.name` access is flattened to a single optional field, which is all
the code observes of it. -/
structure Article where
  title : Option String
  description : Option String
  sourceName : Option String
  url : Option String
deriving Repr, DecidableEq

/-- Cache key: the exact pair `(query, max_articles)`, no normalization. -/
abbrev Key := String × Nat

/-- Error taxonomy of the spec: a failure of the news fetch or of the LLM
summarization call, each carrying a user-renderable message. -/
inductive SummError where
  | fetchError (msg : String)
  | summarizationError (msg : String)
deriving Repr, DecidableEq

/-- The two external collaborators, as oracles: the news-search API and the
LLM summarization API.  Both are deterministic functions here (one fixed
behaviour per environment), which models a single point in time of the
outside world. -/
structure Env where
  get_news_articles : String → Nat → Except String (List Article)
  summarize_articles_llm : String → Except String String

/-- Upstream call counters: how many times the Fetcher and the LLM call
were invoked during one operation. -/
structure Calls where
  fetchCalls : Nat
  llmCalls : Nat
deriving Repr, DecidableEq

instance : Add Calls := ⟨fun a b => ⟨a.fetchCalls + b.fetchCalls, a.llmCalls + b.llmCalls⟩⟩

/-- The two cache tiers.  The outer tier (`st.cache_data`) keeps the
insertion time of each entry; the inner tier (module-level cache) has no
time component at all.  Newest entries are at the head. -/
structure CacheState where
  outer : List (Key × String × Nat)
  inner : List (Key × String)
deriving Repr, DecidableEq

/-- The empty cache state. -/
def CacheState.empty : CacheState := ⟨[], []⟩

/-- Fixed TTL of the outer tier, from the decorator
`@st.cache_data(ttl=60 * 60 * 24)` in `app.py`: 24 hours in seconds. -/
def outerTtl : Nat := 60 * 60 * 24

/-- Outer-tier lookup at time `t`: the most recent entry for the key, if it
is younger than the TTL. -/
def outerLookup (s : CacheState) (t : Nat) (k : Key) : Option String :=
  match s.outer.find? (fun e => decide (e.1 = k)) with
  | some e => if t < e.2.2 + outerTtl then some e.2.1 else none
  | none => none

/-- Inner-tier lookup: purely by key, no time dependence. -/
def innerLookup (s : CacheState) (k : Key) : Option String :=
  (s.inner.find? (fun e => decide (e.1 = k))).map (fun e => e.2)

/-- Modelled from the spec: `clear_module_cache` lives in
`langchain_config.py`, which is not among the sources; per §4.3 it empties
the inner (module-level) tier and touches nothing else. -/
def clear_module_cache (s : CacheState) : CacheState :=
  { s with inner := [] }

/-- Clearing the Streamlit tier: `st.cache_data.clear()` empties the outer
tier and touches nothing else. -/
def clear_streamlit_cache (s : CacheState) : CacheState :=
  { s with outer := [] }

/-- The "Clear all caches" button handler (`app.py` lines 44-51):
`st.cache_data.clear()` followed by `clear_module_cache()`. -/
def clear_all_caches (s : CacheState) : CacheState :=
  clear_module_cache (clear_streamlit_cache s)

/-- The concatenation built in `app.py` lines 101-103:
`"\n\n".join((a.get("title") or "") + " — " + (a.get("description") or ""))`
— title and description joined by an em-dash, articles separated by a blank
line, absent fields rendered as the empty string. -/
def concat_text (articles : List Article) : String :=
  String.intercalate "\n\n"
    (articles.map (fun a => (a.title.getD "") ++ " — " ++ (a.description.getD "")))

/-- Modelled from the spec: `estimate_tokens` lives in
`langchain_config.py`, which is not among the sources.  Per §4.2 it is a
deterministic, pure, total heuristic of the text alone, returning 0 on the
empty string; the standard characters-over-four heuristic satisfies
exactly that contract. -/
def estimate_tokens (text : String) : Nat :=
  text.length / 4

/-- Modelled from the spec: `get_summary` lives in `langchain_config.py`,
which is not among the sources.  Per §4.3 it is the uncached computation:
fetch articles, concatenate title — description pairs, pass the
concatenation to the LLM call; a fetch failure and an LLM failure are
distinguishable errors.  Returns the result together with the upstream
call count. -/
def get_summary (env : Env) (query : String) (maxArticles : Nat) :
    Except SummError String × Calls :=
  match env.get_news_articles query maxArticles with
  | .error e => (.error (.fetchError e), ⟨1, 0⟩)
  | .ok articles =>
    match env.summarize_articles_llm (concat_text articles) with
    | .error e => (.error (.summarizationError e), ⟨1, 1⟩)
    | .ok s => (.ok s, ⟨1, 1⟩)

/-- Modelled from the spec: `get_summary_cached_module` lives in
`langchain_config.py`, which is not among the sources.  Per §4.3 it is the
inner-tier memoized wrapper of `get_summary`: key is the exact pair,
lifetime unbounded within the process, and (as with `functools.lru_cache`,
which does not cache raised exceptions) only successes are stored. -/
def get_summary_cached_module (env : Env) (inner : List (Key × String))
    (query : String) (maxArticles : Nat) :
    Except SummError String × List (Key × String) × Calls :=
  match inner.find? (fun e => decide (e.1 = (query, maxArticles))) with
  | some e => (.ok e.2, inner, ⟨0, 0⟩)
  | none =>
    match get_summary env query maxArticles with
    | (.ok s, c) => (.ok s, ((query, maxArticles), s) :: inner, c)
    | (.error e, c) => (.error e, inner, c)

/-- `get_summary_cached_ui` (`app.py` lines 54-57): the outer
`st.cache_data(ttl=60*60*24)` tier wrapping the module-level cached
wrapper.  On an outer hit the stored summary is returned with no further
work; on a miss the module wrapper runs and a success is stored in the
outer tier stamped with the current time (`st.cache_data` does not cache
exceptions). -/
def get_summary_cached_ui (env : Env) (s : CacheState) (t : Nat)
    (query : String) (maxArticles : Nat) :
    Except SummError String × CacheState × Calls :=
  match outerLookup s t (query, maxArticles) with
  | some v => (.ok v, s, ⟨0, 0⟩)
  | none =>
    match get_summary_cached_module env s.inner query maxArticles with
    | (.ok v, inner2, c) =>
      (.ok v, ⟨((query, maxArticles), v, t) :: s.outer, inner2⟩, c)
    | (.error e, inner2, c) => (.error e, { s with inner := inner2 }, c)

/-- Python `not query.strip()`: true exactly when the query is empty or
all-whitespace (stripping leading and trailing whitespace leaves nothing
iff every character is whitespace). -/
def isBlank (s : String) : Bool :=
  s.data.all Char.isWhitespace

/-- Python truthiness of an optional string: absent and empty are falsy. -/
def pyTruthy (o : Option String) : Bool :=
  match o with
  | some s => !s.isEmpty
  | none => false

/-- Python `x or default` on an optional string. -/
def pyOr (o : Option String) (d : String) : String :=
  if pyTruthy o then o.getD "" else d

/-- Python f-string rendering of an optional string (`None` renders as the
word `None`). -/
def pyStr (o : Option String) : String :=
  match o with
  | some s => s
  | none => "None"

/-- One user-visible UI emission, tagged with the Streamlit channel that
produced it. -/
inductive Msg where
  | warning (text : String)
  | errorMsg (text : String)
  | info (text : String)
  | markdown (text : String)
  | write (text : String)
  | download (label fileName data : String)
deriving Repr, DecidableEq

/-- The listing line for one fetched article (`app.py` lines 90-97). -/
def articleLine (a : Article) : Msg :=
  let title := pyOr a.title "<no title>"
  let src := pyStr a.sourceName
  if pyTruthy a.url then
    .write ("- [" ++ title ++ "](" ++ (a.url.getD "") ++ ") — *" ++ src ++ "*")
  else
    .write ("- " ++ title ++ " — *" ++ src ++ "*")

/-- The message text rendered for a caught exception (`f"... {e}"`). -/
def SummError.render : SummError → String
  | .fetchError m => m
  | .summarizationError m => m

/-- Outcome of one press of the "Run (Get News Summary)" button: the
messages emitted in order, the summary bound at the end (Python `summary`
is `None` when summarization failed), whether the summarization step was
entered at all, and the upstream call count of the whole interaction. -/
structure RunResult where
  messages : List Msg
  summary : Option String
  summarizeAttempted : Bool
  calls : Calls
deriving Repr, DecidableEq

/-- The body of `if run_pressed:` (`app.py` lines 71-136), with the cache
state, session history (newest first) and current time made explicit.
`cacheTtlMinutes` is the sidebar "Cache TTL (minutes)" value, in scope for
the handler exactly as in the source. -/
def run_pressed (env : Env) (s : CacheState) (hist : List (String × String))
    (t : Nat) (query : String) (maxArticles : Nat) (cacheTtlMinutes : Nat) :
    RunResult × CacheState × List (String × String) :=
  if isBlank query then
    (⟨[.warning "Please enter a query."], none, false, ⟨0, 0⟩⟩, s, hist)
  else
    match env.get_news_articles query maxArticles with
    | .error e =>
      -- fetch failed: report, treat as zero articles, skip summarization
      (⟨[.errorMsg ("Failed to fetch articles: " ++ e),
         .info "No articles found for this query."], none, false, ⟨1, 0⟩⟩, s, hist)
    | .ok articles =>
      if articles.isEmpty then
        (⟨[.info "No articles found for this query."], none, false, ⟨1, 0⟩⟩, s, hist)
      else
        let listing :=
          .markdown ("### Fetched articles (" ++ toString articles.length ++ ")")
            :: (articles.take 30).map articleLine
        let text := concat_text articles
        let est := estimate_tokens text
        let estMsgs :=
          [.info ("Estimated tokens for input (approx): " ++ toString est)] ++
          (if est > 8000 then
            [Msg.warning
              "Large token estimate — consider lowering max articles to reduce OpenAI usage/cost."]
          else [])
        match get_summary_cached_ui env s t query maxArticles with
        | (.error e, s2, c) =>
          (⟨listing ++ estMsgs ++ [.errorMsg ("Error during summarization: " ++ e.render)],
            none, true, ⟨1, 0⟩ + c⟩, s2, hist)
        | (.ok summary, s2, c) =>
          if summary.isEmpty then
            -- Python `if summary:`: an empty summary displays nothing
            (⟨listing ++ estMsgs, some summary, true, ⟨1, 0⟩ + c⟩, s2, hist)
          else
            (⟨listing ++ estMsgs ++
              [.markdown "### Summary", .write summary,
               .download "Download summary (txt)" "summary.txt" summary],
              some summary, true, ⟨1, 0⟩ + c⟩, s2,
              (query, summary) :: hist)

end EquityNews
namespace EquityNews

/-- A concrete article used to exercise the theorems below. -/
def artW : Article := ⟨some "A", some "B", some "S", some "http://x"⟩

/-- An environment in which both upstream calls succeed. -/
def envW : Env := ⟨fun _ _ => .ok [artW], fun _ => .ok "SUM"⟩

/-- An environment in which the news fetch fails. -/
def envFetchFail : Env := ⟨fun _ _ => .error "boom", fun _ => .ok "SUM"⟩

/-- An environment in which the LLM call fails. -/
def envLlmFail : Env := ⟨fun _ _ => .ok [artW], fun _ => .error "llm down"⟩

/-- A cache state holding a stale entry at both tiers for ("Acme", 5). -/
def stateW : CacheState := ⟨[(("Acme", 5), "old", 0)], [(("Acme", 5), "old")]⟩

/-- The cache state produced by one successful computation for ("Acme", 5)
into an empty cache at time 0, in the environment `envW`. -/
def stateAcme : CacheState := ⟨[(("Acme", 5), "SUM", 0)], [(("Acme", 5), "SUM")]⟩

/-- Repeated concatenation of a text with itself, `k` copies. -/
def repeatText (s : String) : Nat → String
  | 0 => ""
  | k + 1 => s ++ repeatText s k

/-- Helper: an outer-tier entry, once found, yields the same value at every
time at which it is still valid. -/
lemma outerLookup_stable {s : CacheState} {t t' : Nat} {k : Key} {v : String}
    (h : outerLookup s t k = some v) (h' : (outerLookup s t' k).isSome) :
    outerLookup s t' k = some v := by
  unfold outerLookup at *
  cases hf : s.outer.find? (fun e => decide (e.1 = k)) with
  | none => rw [hf] at h; exact absurd h (by simp)
  | some e =>
    rw [hf] at h h'
    dsimp only at h h' ⊢
    by_cases hc : t' < e.2.2 + outerTtl
    · rw [if_pos hc] at h' ⊢
      by_cases ht : t < e.2.2 + outerTtl
      · rw [if_pos ht] at h
        exact h
      · rw [if_neg ht] at h
        exact absurd h (by simp)
    · rw [if_neg hc] at h'
      exact absurd h' (by simp)

/-- Helper: a failing module-level call leaves the inner tier unchanged. -/
lemma module_error_inner {env : Env} {inner inner2 : List (Key × String)}
    {q : String} {n : Nat} {e : SummError} {c : Calls}
    (h : get_summary_cached_module env inner q n = (.error e, inner2, c)) :
    inner2 = inner := by
  unfold get_summary_cached_module at h
  split at h
  · simp at h
  · split at h
    · simp at h
    · simp only [Prod.mk.injEq] at h
      exact h.2.1.symm

/-- Helper: a successful module-level call leaves the key present in the
returned inner tier, bound to the returned summary. -/
lemma module_ok_found {env : Env} {inner inner2 : List (Key × String)}
    {q : String} {n : Nat} {sum : String} {c : Calls}
    (h : get_summary_cached_module env inner q n = (.ok sum, inner2, c)) :
    inner2.find? (fun e => decide (e.1 = (q, n))) = some ((q, n), sum) := by
  unfold get_summary_cached_module at h
  split at h
  · rename_i e hf
    have hpred := List.find?_some hf
    simp only [decide_eq_true_eq] at hpred
    simp only [Prod.mk.injEq, Except.ok.injEq] at h
    obtain ⟨h1, h2, h3⟩ := h
    subst h1 h2
    rw [hf]
    cases e with
    | mk k v => simp_all
  · split at h
    · rename_i v c' hm
      simp only [Prod.mk.injEq, Except.ok.injEq] at h
      obtain ⟨h1, h2, h3⟩ := h
      subst h1 h2
      exact List.find?_cons_of_pos _ (by simp)
    · simp at h

/-- Helper: a successful module-level call either served the inner tier
unchanged or prepended exactly the computed entry. -/
lemma module_ok_inner_shape {env : Env} {inner inner2 : List (Key × String)}
    {q : String} {n : Nat} {sum : String} {c : Calls}
    (h : get_summary_cached_module env inner q n = (.ok sum, inner2, c)) :
    inner2 = inner ∨ inner2 = ((q, n), sum) :: inner := by
  unfold get_summary_cached_module at h
  split at h
  · simp only [Prod.mk.injEq, Except.ok.injEq] at h
    exact Or.inl h.2.1.symm
  · split at h
    · simp only [Prod.mk.injEq, Except.ok.injEq] at h
      obtain ⟨h1, h2, h3⟩ := h
      subst h1
      exact Or.inr h2.symm
    · simp at h

/-- Helper: after a successful call through the outer entry point, the
outer tier holds the returned summary for the key at the call time. -/
lemma ui_ok_outerLookup {env : Env} {s : CacheState} {t : Nat} {q : String} {n : Nat}
    {sum : String} {s1 : CacheState} {c : Calls}
    (h : get_summary_cached_ui env s t q n = (.ok sum, s1, c)) :
    outerLookup s1 t (q, n) = some sum := by
  unfold get_summary_cached_ui at h
  split at h
  · rename_i v hv
    simp only [Prod.mk.injEq, Except.ok.injEq] at h
    obtain ⟨h1, h2, h3⟩ := h
    subst h1 h2
    exact hv
  · rename_i hv
    split at h
    · rename_i v inner2 c' hm
      simp only [Prod.mk.injEq, Except.ok.injEq] at h
      obtain ⟨h1, h2, h3⟩ := h
      subst h1 h2
      simp [outerLookup, List.find?_cons_of_pos, outerTtl]
    · simp at h

/-- Helper: a failing call through the outer entry point leaves the whole
cache state unchanged (neither tier stores failures). -/
lemma ui_error_state {env : Env} {s : CacheState} {t : Nat} {q : String} {n : Nat}
    {e : SummError} {s2 : CacheState} {c : Calls}
    (h : get_summary_cached_ui env s t q n = (.error e, s2, c)) :
    s2 = s := by
  unfold get_summary_cached_ui at h
  split at h
  · simp at h
  · split at h
    · simp at h
    · rename_i e' inner2 c' hm
      simp only [Prod.mk.injEq] at h
      obtain ⟨h1, h2, h3⟩ := h
      rw [← h2, module_error_inner hm]

/-- Helper: any call through the outer entry point only ever prepends
entries carrying its own key; entries for other keys are untouched. -/
lemma ui_state_shape {env : Env} {s : CacheState} {t : Nat} {q : String} {n : Nat}
    {r : Except SummError String} {s1 : CacheState} {c : Calls}
    (h : get_summary_cached_ui env s t q n = (r, s1, c)) :
    (s1.outer = s.outer ∨ ∃ v, s1.outer = ((q, n), v, t) :: s.outer) ∧
    (s1.inner = s.inner ∨ ∃ w, s1.inner = ((q, n), w) :: s.inner) := by
  unfold get_summary_cached_ui at h
  split at h
  · simp only [Prod.mk.injEq] at h
    obtain ⟨h1, h2, h3⟩ := h
    subst h2
    exact ⟨Or.inl rfl, Or.inl rfl⟩
  · split at h
    · rename_i v inner2 c' hm
      simp only [Prod.mk.injEq] at h
      obtain ⟨h1, h2, h3⟩ := h
      subst h2
      rcases module_ok_inner_shape hm with hi | hi
      · exact ⟨Or.inr ⟨v, rfl⟩, Or.inl hi⟩
      · exact ⟨Or.inr ⟨v, rfl⟩, Or.inr ⟨v, hi⟩⟩
    · rename_i e' inner2 c' hm
      simp only [Prod.mk.injEq] at h
      obtain ⟨h1, h2, h3⟩ := h
      subst h2
      rw [module_error_inner hm]
      exact ⟨Or.inl rfl, Or.inl rfl⟩

/-- Helper: prepending an entry for a different key leaves outer-tier
lookups for the original key unchanged. -/
lemma outerLookup_cons_ne {k1 k2 : Key} (hne : k1 ≠ k2) (v : String) (t0 : Nat)
    (o : List (Key × String × Nat)) (i i' : List (Key × String)) (t : Nat) :
    outerLookup ⟨(k1, v, t0) :: o, i⟩ t k2 = outerLookup ⟨o, i'⟩ t k2 := by
  unfold outerLookup
  rw [List.find?_cons_of_neg _ (by simp [hne])]

/-- Helper: prepending an entry for a different key leaves inner-tier
lookups for the original key unchanged. -/
lemma innerLookup_cons_ne {k1 k2 : Key} (hne : k1 ≠ k2) (w : String)
    (o o' : List (Key × String × Nat)) (i : List (Key × String)) :
    innerLookup ⟨o, (k1, w) :: i⟩ k2 = innerLookup ⟨o', i⟩ k2 := by
  unfold innerLookup
  rw [List.find?_cons_of_neg _ (by simp [hne])]

/-- Helper: the observable components (returned summary and upstream call
count) of the outer entry point are a function of the two lookups alone:
outer hit, else inner hit, else the uncached computation. -/
lemma ui_components (env : Env) (s : CacheState) (t : Nat) (q : String) (n : Nat) :
    (get_summary_cached_ui env s t q n).1 =
      (match outerLookup s t (q, n) with
       | some v => .ok v
       | none =>
         match innerLookup s (q, n) with
         | some v => .ok v
         | none => (get_summary env q n).1) ∧
    (get_summary_cached_ui env s t q n).2.2 =
      (match outerLookup s t (q, n) with
       | some _ => (⟨0, 0⟩ : Calls)
       | none =>
         match innerLookup s (q, n) with
         | some _ => (⟨0, 0⟩ : Calls)
         | none => (get_summary env q n).2) := by
  cases ho : outerLookup s t (q, n) with
  | some v => simp [get_summary_cached_ui, ho]
  | none =>
    cases hi : s.inner.find? (fun e => decide (e.1 = (q, n))) with
    | some e =>
      have hil : innerLookup s (q, n) = some e.2 := by simp [innerLookup, hi]
      simp [get_summary_cached_ui, get_summary_cached_module, ho, hi, hil]
    | none =>
      have hil : innerLookup s (q, n) = none := by simp [innerLookup, hi]
      cases hg : get_summary env q n with
      | mk r c =>
        cases r <;>
          simp [get_summary_cached_ui, get_summary_cached_module, ho, hi, hil, hg]

/-- Helper: an article listing line is never a warning message. -/
lemma articleLine_ne_warning (a : Article) (w : String) :
    articleLine a ≠ Msg.warning w := by
  unfold articleLine
  split <;> simp

/-- Helper: no prefix of the article listing contains a warning. -/
lemma warning_not_mem_listing (arts : List Article) (w : String) (k : Nat) :
    Msg.warning w ∉ (arts.map articleLine).take k := by
  intro hmem
  obtain ⟨a, _, ha⟩ := List.mem_map.mp (List.mem_of_mem_take hmem)
  exact articleLine_ne_warning a w ha

/-- Helper: a fresh successful computation (outer miss) prepends the entry
to the outer tier stamped with the call time, and leaves the key present
in the inner tier. -/
lemma ui_fresh_ok_shape {env : Env} {s : CacheState} {t0 : Nat} {q : String}
    {n : Nat} {sum : String} {s1 : CacheState} {c1 : Calls}
    (hmiss : outerLookup s t0 (q, n) = none)
    (h : get_summary_cached_ui env s t0 q n = (.ok sum, s1, c1)) :
    s1.outer = ((q, n), sum, t0) :: s.outer ∧
    s1.inner.find? (fun e => decide (e.1 = (q, n))) = some ((q, n), sum) := by
  unfold get_summary_cached_ui at h
  split at h
  · rename_i v hv
    rw [hmiss] at hv
    exact absurd hv (by simp)
  · split at h
    · rename_i v inner2 c' hm
      simp only [Prod.mk.injEq, Except.ok.injEq] at h
      obtain ⟨h1, h2, h3⟩ := h
      subst h1 h2
      exact ⟨rfl, module_ok_found hm⟩
    · simp at h

/-- C1: after the "Clear all caches" handler runs, neither tier retains any
key, and a subsequent call through the cached entry point reaches upstream
again: the Fetcher is invoked once, and whenever the fetch succeeds the LLM
call is invoked once as well — no stale hit from either tier. -/
theorem clear_all_caches_recompute (env : Env) (s : CacheState) (t : Nat)
    (q : String) (n : Nat) :
    outerLookup (clear_all_caches s) t (q, n) = none ∧
    innerLookup (clear_all_caches s) (q, n) = none ∧
    (get_summary_cached_ui env (clear_all_caches s) t q n).2.2.fetchCalls = 1 ∧
    (∀ articles, env.get_news_articles q n = .ok articles →
      (get_summary_cached_ui env (clear_all_caches s) t q n).2.2.llmCalls = 1) := by
  have hclear : clear_all_caches s = ⟨[], []⟩ := rfl
  rw [hclear]
  refine ⟨rfl, rfl, ?_, ?_⟩
  · cases hf : env.get_news_articles q n with
    | error e =>
      simp [get_summary_cached_ui, get_summary_cached_module, get_summary,
        outerLookup, hf]
    | ok arts =>
      cases hl : env.summarize_articles_llm (concat_text arts) with
      | error e =>
        simp [get_summary_cached_ui, get_summary_cached_module, get_summary,
          outerLookup, hf, hl]
      | ok v =>
        simp [get_summary_cached_ui, get_summary_cached_module, get_summary,
          outerLookup, hf, hl]
  · intro arts hf
    cases hl : env.summarize_articles_llm (concat_text arts) with
    | error e =>
      simp [get_summary_cached_ui, get_summary_cached_module, get_summary,
        outerLookup, hf, hl]
    | ok v =>
      simp [get_summary_cached_ui, get_summary_cached_module, get_summary,
        outerLookup, hf, hl]

/-- Witness for C1 at a concrete environment, stale state and key. -/
theorem clear_all_caches_recompute_witness :
    (get_summary_cached_ui envW (clear_all_caches stateW) 7 "Acme" 5).2.2.llmCalls = 1 :=
  (clear_all_caches_recompute envW stateW 7 "Acme" 5).2.2.2 [artW] rfl

/-- C2: a second call with the same `(query, max_articles)` after a
successful one — no clear in between, the outer entry still unexpired —
returns the byte-identical summary, leaves the caches unchanged, and makes
zero upstream calls (in particular at most one). -/
theorem cached_ui_idempotent (env : Env) (s : CacheState) (t1 t2 : Nat)
    (q : String) (n : Nat) (sum : String) (s1 : CacheState) (c1 : Calls)
    (h1 : get_summary_cached_ui env s t1 q n = (.ok sum, s1, c1))
    (h2 : (outerLookup s1 t2 (q, n)).isSome) :
    get_summary_cached_ui env s1 t2 q n = (.ok sum, s1, ⟨0, 0⟩) ∧
    (get_summary_cached_ui env s1 t2 q n).2.2.fetchCalls +
      (get_summary_cached_ui env s1 t2 q n).2.2.llmCalls ≤ 1 := by
  have hl : outerLookup s1 t2 (q, n) = some sum :=
    outerLookup_stable (ui_ok_outerLookup h1) h2
  have hcall : get_summary_cached_ui env s1 t2 q n = (.ok sum, s1, ⟨0, 0⟩) := by
    unfold get_summary_cached_ui
    rw [hl]
  exact ⟨hcall, by rw [hcall]; exact Nat.zero_le 1⟩

/-- Witness for C2: compute once into an empty cache, call again later. -/
theorem cached_ui_idempotent_witness :
    get_summary_cached_ui envW stateAcme 10 "Acme" 5 =
      (.ok "SUM", stateAcme, ⟨0, 0⟩) :=
  (cached_ui_idempotent envW CacheState.empty 0 10 "Acme" 5 "SUM"
    stateAcme ⟨1, 1⟩ (by decide) (by decide)).1

/-- C3: the cache key is the exact pair with no normalization: a call for
key `(q1, n1)` never contaminates key `(q2, n2)` when the pairs differ
(in particular when the queries differ only in case or whitespace) — both
lookups and the observable behaviour of a subsequent call for the other
key are exactly as if the first call had never happened; and a lookup is a
pure function of the key and the cache content alone. -/
theorem cache_key_exact_no_crosshit (env : Env) (s : CacheState) (t1 t2 : Nat)
    (q1 q2 : String) (n1 n2 : Nat) (r1 : Except SummError String)
    (s1 : CacheState) (c1 : Calls)
    (hne : (q1, n1) ≠ (q2, n2))
    (h1 : get_summary_cached_ui env s t1 q1 n1 = (r1, s1, c1)) :
    outerLookup s1 t2 (q2, n2) = outerLookup s t2 (q2, n2) ∧
    innerLookup s1 (q2, n2) = innerLookup s (q2, n2) ∧
    (get_summary_cached_ui env s1 t2 q2 n2).1 =
      (get_summary_cached_ui env s t2 q2 n2).1 ∧
    (get_summary_cached_ui env s1 t2 q2 n2).2.2 =
      (get_summary_cached_ui env s t2 q2 n2).2.2 := by
  obtain ⟨ho, hi⟩ := ui_state_shape h1
  have houter : outerLookup s1 t2 (q2, n2) = outerLookup s t2 (q2, n2) := by
    rcases ho with h | ⟨v, h⟩
    · unfold outerLookup
      rw [h]
    · unfold outerLookup
      rw [h, List.find?_cons_of_neg _ (by simp [hne])]
  have hinner : innerLookup s1 (q2, n2) = innerLookup s (q2, n2) := by
    rcases hi with h | ⟨w, h⟩
    · unfold innerLookup
      rw [h]
    · unfold innerLookup
      rw [h, List.find?_cons_of_neg _ (by simp [hne])]
  have e1 := (ui_components env s1 t2 q2 n2).1
  have e2 := (ui_components env s1 t2 q2 n2).2
  rw [houter, hinner] at e1 e2
  exact ⟨houter, hinner,
    e1.trans (ui_components env s t2 q2 n2).1.symm,
    e2.trans (ui_components env s t2 q2 n2).2.symm⟩

/-- Witness for C3: caching "Acme" does not make "acme" (same query up to
letter case) behave as a hit. -/
theorem cache_key_exact_no_crosshit_witness :
    (get_summary_cached_ui envW stateAcme 0 "acme" 5).2.2 =
      (get_summary_cached_ui envW CacheState.empty 0 "acme" 5).2.2 :=
  (cache_key_exact_no_crosshit envW CacheState.empty 0 0 "Acme" "acme" 5 5
    (.ok "SUM") stateAcme ⟨1, 1⟩ (by decide) (by decide)).2.2.2

/-- C4: the text passed to summarization joins each article's title and
description with an em-dash and separates articles with a blank line,
absent fields rendering as the empty string; in particular the two-article
example with a missing description yields exactly `"A — B\n\nC — "`. -/
theorem concat_text_formatting :
    (∀ a b : Article, concat_text [a, b] =
      (a.title.getD "" ++ " — " ++ a.description.getD "") ++ "\n\n" ++
      (b.title.getD "" ++ " — " ++ b.description.getD "")) ∧
    concat_text [⟨some "A", some "B", none, none⟩, ⟨some "C", none, none, none⟩] =
      "A — B\n\nC — " := by
  constructor
  · intro a b
    simp [concat_text, String.intercalate, String.intercalate.go]
  · rfl

/-- C5: a failing fetch or a fetch returning zero articles does not crash
the interaction: the user sees the "no articles" message (and, on a fetch
failure, an error message naming the fetch stage), the summarization step
is never entered, no LLM call is made, no summary is produced, and neither
the caches nor the session history record anything. -/
theorem fetch_failure_treated_as_empty (env : Env) (s : CacheState)
    (hist : List (String × String)) (t : Nat) (q : String) (n ttlm : Nat)
    (hq : isBlank q = false)
    (h : (∃ e, env.get_news_articles q n = .error e) ∨
      env.get_news_articles q n = .ok []) :
    Msg.info "No articles found for this query." ∈
      (run_pressed env s hist t q n ttlm).1.messages ∧
    (run_pressed env s hist t q n ttlm).1.calls.llmCalls = 0 ∧
    (run_pressed env s hist t q n ttlm).1.summarizeAttempted = false ∧
    (run_pressed env s hist t q n ttlm).1.summary = none ∧
    (run_pressed env s hist t q n ttlm).2.1 = s ∧
    (run_pressed env s hist t q n ttlm).2.2 = hist ∧
    (∀ e, env.get_news_articles q n = .error e →
      Msg.errorMsg ("Failed to fetch articles: " ++ e) ∈
        (run_pressed env s hist t q n ttlm).1.messages) := by
  rcases h with ⟨e, hf⟩ | hf <;>
    refine ⟨?_, ?_, ?_, ?_, ?_, ?_, ?_⟩ <;>
      simp [run_pressed, hq, hf]

/-- Witness for C5 in an environment whose fetch fails. -/
theorem fetch_failure_treated_as_empty_witness :
    (run_pressed envFetchFail CacheState.empty [] 0 "Acme" 5 60).1.calls.llmCalls = 0 :=
  (fetch_failure_treated_as_empty envFetchFail CacheState.empty [] 0 "Acme" 5 60
    rfl (Or.inl ⟨"boom", rfl⟩)).2.1

/-- C6: when the LLM summarization call fails, the error is reported with
the summarization stage named, no summary is produced, neither cache tier
records anything, the fetched-article listing is still shown, and the
session history is untouched. -/
theorem summarization_failure_recovered (env : Env) (s : CacheState)
    (hist : List (String × String)) (t : Nat) (q : String) (n ttlm : Nat)
    (arts : List Article) (e : SummError) (s2 : CacheState) (c : Calls)
    (hq : isBlank q = false)
    (hfetch : env.get_news_articles q n = .ok arts)
    (hne : arts ≠ [])
    (hsum : get_summary_cached_ui env s t q n = (.error e, s2, c)) :
    (run_pressed env s hist t q n ttlm).1.summary = none ∧
    Msg.errorMsg ("Error during summarization: " ++ e.render) ∈
      (run_pressed env s hist t q n ttlm).1.messages ∧
    Msg.markdown ("### Fetched articles (" ++ toString arts.length ++ ")") ∈
      (run_pressed env s hist t q n ttlm).1.messages ∧
    (run_pressed env s hist t q n ttlm).2.1 = s ∧
    (run_pressed env s hist t q n ttlm).2.2 = hist := by
  have hempty : arts.isEmpty = false := List.isEmpty_eq_false.mpr hne
  have hstate : s2 = s := ui_error_state hsum
  refine ⟨?_, ?_, ?_, ?_, ?_⟩ <;>
    simp [run_pressed, hq, hfetch, hempty, hsum, hstate]

/-- Witness for C6 in an environment whose LLM call fails. -/
theorem summarization_failure_recovered_witness :
    (run_pressed envLlmFail CacheState.empty [] 0 "Acme" 5 60).2.1 =
      CacheState.empty :=
  (summarization_failure_recovered envLlmFail CacheState.empty [] 0 "Acme" 5 60
    [artW] (.summarizationError "llm down") CacheState.empty ⟨1, 1⟩
    (by decide) rfl (by decide) (by decide)).2.2.2.1

/-- C7: the token estimate is advisory only: whenever articles were
fetched, the cost warning is shown exactly when the estimate exceeds 8000,
and the summarization call proceeds in every case — the summary outcome is
exactly that of the cached entry point, independent of the estimate. -/
theorem estimate_tokens_advisory (env : Env) (s : CacheState)
    (hist : List (String × String)) (t : Nat) (q : String) (n ttlm : Nat)
    (arts : List Article)
    (hq : isBlank q = false)
    (hfetch : env.get_news_articles q n = .ok arts)
    (hne : arts ≠ []) :
    (run_pressed env s hist t q n ttlm).1.summarizeAttempted = true ∧
    (run_pressed env s hist t q n ttlm).1.summary =
      (get_summary_cached_ui env s t q n).1.toOption ∧
    (8000 < estimate_tokens (concat_text arts) ↔
      Msg.warning
        "Large token estimate — consider lowering max articles to reduce OpenAI usage/cost." ∈
        (run_pressed env s hist t q n ttlm).1.messages) := by
  have hempty : arts.isEmpty = false := List.isEmpty_eq_false.mpr hne
  cases hui : get_summary_cached_ui env s t q n with
  | mk r p =>
    cases p with
    | mk s2 c =>
      by_cases hest : 8000 < estimate_tokens (concat_text arts)
      · cases r with
        | error e =>
          refine ⟨?_, ?_, ?_⟩ <;>
            simp [run_pressed, hq, hfetch, hempty, hui, hest, Except.toOption]
        | ok v =>
          by_cases hv : v.isEmpty <;>
            refine ⟨?_, ?_, ?_⟩ <;>
              simp [run_pressed, hq, hfetch, hempty, hui, hest, hv, Except.toOption]
      · cases r with
        | error e =>
          refine ⟨?_, ?_, ?_⟩ <;>
            simp [run_pressed, hq, hfetch, hempty, hui, hest, Except.toOption,
              articleLine_ne_warning, warning_not_mem_listing]
        | ok v =>
          by_cases hv : v.isEmpty <;>
            refine ⟨?_, ?_, ?_⟩ <;>
              simp [run_pressed, hq, hfetch, hempty, hui, hest, hv, Except.toOption,
                articleLine_ne_warning, warning_not_mem_listing]

/-- Witness for C7 in the all-success environment. -/
theorem estimate_tokens_advisory_witness :
    (run_pressed envW CacheState.empty [] 0 "Acme" 5 60).1.summarizeAttempted = true :=
  (estimate_tokens_advisory envW CacheState.empty [] 0 "Acme" 5 60 [artW]
    rfl rfl (by decide)).1

/-- C8: the token estimator is a total pure function of the text: it
returns 0 on the empty string and is monotonically non-decreasing under
repeated concatenation of the same non-empty string. -/
theorem estimate_tokens_props :
    estimate_tokens "" = 0 ∧
    (∀ s : String, s ≠ "" → ∀ k : Nat,
      estimate_tokens (repeatText s k) ≤ estimate_tokens (repeatText s (k + 1))) := by
  constructor
  · rfl
  · intro s _ k
    unfold estimate_tokens
    apply Nat.div_le_div_right
    show (repeatText s k).length ≤ (s ++ repeatText s k).length
    rw [String.length_append]
    exact Nat.le_add_left _ _

/-- Witness for C8 at the concrete string "ab" and three copies. -/
theorem estimate_tokens_props_witness :
    estimate_tokens (repeatText "ab" 3) ≤ estimate_tokens (repeatText "ab" 4) :=
  estimate_tokens_props.2 "ab" (by decide) 3

/-- C9: lifecycle of a key across the two tiers.  After a fresh successful
computation at time `t0`: at every time past the 24-hour TTL the outer
entry has expired while the inner entry is still in place, and a call at
such a time is served from the inner tier with zero upstream calls
(re-populating the outer tier); the inner entry leaves only through an
explicit clear, after which neither tier holds the key; the outer TTL is
the fixed 24 hours. -/
theorem two_tier_lifecycle (env : Env) (s : CacheState) (t0 : Nat)
    (q : String) (n : Nat) (sum : String) (s1 : CacheState) (c1 : Calls)
    (hmiss : outerLookup s t0 (q, n) = none)
    (h1 : get_summary_cached_ui env s t0 q n = (.ok sum, s1, c1)) :
    (∀ t, t0 + outerTtl ≤ t →
      outerLookup s1 t (q, n) = none ∧
      innerLookup s1 (q, n) = some sum ∧
      get_summary_cached_ui env s1 t q n =
        (.ok sum, ⟨((q, n), sum, t) :: s1.outer, s1.inner⟩, ⟨0, 0⟩)) ∧
    outerLookup (clear_all_caches s1) t0 (q, n) = none ∧
    innerLookup (clear_all_caches s1) (q, n) = none ∧
    outerTtl = 60 * 60 * 24 := by
  obtain ⟨ho, hif⟩ := ui_fresh_ok_shape hmiss h1
  refine ⟨?_, rfl, rfl, rfl⟩
  intro t ht
  have hout : outerLookup s1 t (q, n) = none := by
    unfold outerLookup
    rw [ho, List.find?_cons_of_pos _ (by simp)]
    dsimp only
    rw [if_neg (Nat.not_lt.mpr ht)]
  have hin : innerLookup s1 (q, n) = some sum := by
    unfold innerLookup
    rw [hif]
    rfl
  refine ⟨hout, hin, ?_⟩
  unfold get_summary_cached_ui get_summary_cached_module
  rw [hout, hif]

/-- Witness for C9: the concrete single-entry state one second after the
TTL ran out. -/
theorem two_tier_lifecycle_witness :
    outerLookup stateAcme 86400 ("Acme", 5) = none ∧
    innerLookup stateAcme ("Acme", 5) = some "SUM" ∧
    get_summary_cached_ui envW stateAcme 86400 "Acme" 5 =
      (.ok "SUM", ⟨(("Acme", 5), "SUM", 86400) :: stateAcme.outer, stateAcme.inner⟩,
        ⟨0, 0⟩) :=
  (two_tier_lifecycle envW CacheState.empty 0 "Acme" 5 "SUM" stateAcme ⟨1, 1⟩
    rfl (by decide)).1 86400 (by decide)

/-- C10: the sidebar "Cache TTL (minutes)" value never flows into caching
or summarization: the whole run handler is invariant under changing it, and
the effective outer-tier TTL is the fixed 24 hours. -/
theorem cache_ttl_minutes_inert :
    (∀ (env : Env) (s : CacheState) (hist : List (String × String))
      (t : Nat) (q : String) (n v1 v2 : Nat),
      run_pressed env s hist t q n v1 = run_pressed env s hist t q n v2) ∧
    outerTtl = 60 * 60 * 24 :=
  ⟨fun _ _ _ _ _ _ _ _ => rfl, rfl⟩

end EquityNews
